import Mathlib

/-!
Shallow embedding of the arxiv-slack notifier (src/main.py) and proofs about
its announcement-date / submission-window calculation, its result formatter,
and its cross-list filter.

Conventions of the embedding:

* A calendar date is its proleptic Gregorian ordinal (Python's
  `date.toordinal()`), an `Int`; ordinal 1 is 0001-01-01, a Monday, so
  `isoweekday o = (o - 1) % 7 + 1` agrees with Python's `date.isoweekday`
  (Monday = 1 .. Sunday = 7).
* The program converts every datetime to the fixed-offset EST timezone
  (UTC-5, no daylight saving) before doing anything with it, and
  `astimezone(EST)` is a bijection on timezone-aware instants; an instant is
  therefore represented by its EST clock reading `ESTDateTime`:
  the ordinal of the local calendar day and the seconds elapsed since local
  midnight (`sod`, 0 .. 86399 for real instants).  14:00:00 is 50400,
  13:59:59 is 50399, 20:00:00 is 72000.
* Python code that raises is embedded as an `Option` (`none` = the exception
  propagates).
-/

/-- EST-local clock reading of a timezone-aware instant: calendar-day ordinal
and seconds since local midnight. -/
structure ESTDateTime where
  ordinal : Int
  sod : Int
deriving DecidableEq

/-- Python's `date.isoweekday()` on an ordinal: Monday = 1 .. Sunday = 7. -/
def isoweekday (o : Int) : Int := (o - 1) % 7 + 1

/-- The loop `while d.isoweekday() in (5, 6): d -= timedelta(days=1)` of
`latest_announced_date` (src/main.py line 60-61). -/
def skip_fri_sat (o : Int) : Int :=
  if isoweekday o = 5 ∨ isoweekday o = 6 then skip_fri_sat (o - 1) else o
termination_by (isoweekday o).toNat
decreasing_by
  simp only [isoweekday] at *
  omega

/-- Embedding of `latest_announced_date` (src/main.py lines 33-62): convert to EST, step
back one day when before 20:00, walk Friday/Saturday back to Thursday, and
return the resulting day anchored at 20:00 EST. -/
def latest_announced_date (now : ESTDateTime) : ESTDateTime :=
  let d := if now.sod < 72000 then now.ordinal - 1 else now.ordinal
  { ordinal := skip_fri_sat d, sod := 72000 }

/-- Embedding of `get_submitted_date_range` (src/main.py lines 65-114): `none` models the
`raise ValueError` for isoweekday 5 or 6; otherwise the window runs from the
previous day (three days back on Mondays) at 14:00:00 EST to the given day at
13:59:59 EST. -/
def get_submitted_date_range (announced_date : Int) :
    Option (ESTDateTime × ESTDateTime) :=
  if isoweekday announced_date = 5 ∨ isoweekday announced_date = 6 then
    none
  else
    let b := if isoweekday announced_date ≠ 1 then announced_date - 1
             else announced_date - 3
    some ({ ordinal := b, sod := 50400 },
          { ordinal := announced_date, sod := 50399 })

/-- Absolute second count of an EST clock reading (for span arithmetic). -/
def est_seconds (dt : ESTDateTime) : Int := dt.ordinal * 86400 + dt.sod

/-- Embedding of `_truncate_authors` (src/main.py lines 25-26). -/
def _truncate_authors (authors : List String) (limit : Nat) : List String :=
  if authors.length ≤ limit then authors else authors.take limit ++ ["..."]

/-- Whether `p` is an initial segment of `s` (how `re.match` anchors a pattern at the
start of the subject and nowhere else). -/
def starts_with : List Char → List Char → Bool
  | [], _ => true
  | _ :: _, [] => false
  | p :: ps, c :: cs => p == c && starts_with ps cs

/-- The literal part `http\://arxiv\.org/abs/` of the URL pattern in
`_arxiv_url_to_id` (src/main.py line 30). -/
def arxiv_abs_head : List Char := "http://arxiv.org/abs/".data

/-- The capture group `\d{4}\.\d{5}` of the URL pattern: exactly four ASCII
digits, a dot, five ASCII digits.  (Python's `\d` also admits non-ASCII
decimal digits; arXiv identifiers use the ASCII alphabet.) -/
def id_shape (l : List Char) : Bool :=
  l.length == 10 && (l.take 4).all Char.isDigit &&
    (l.drop 4).take 1 == ['.'] && (l.drop 5).all Char.isDigit

/-- Embedding of `_arxiv_url_to_id` (src/main.py lines 29-30):
`re.match(r"http\://arxiv\.org/abs/(\d{4}\.\d{5})[v\d+]?", url).group(1)`.
`re.match` anchors only at the start of `url`, and the trailing `[v\d+]?` is
an optional single character that never affects success or the group, so the
match succeeds exactly when `url` begins with the literal head followed by a
ten-character `\d{4}\.\d{5}` identifier, whatever follows.  `none` models the
`AttributeError` raised by `.group(1)` when `re.match` returns `None`. -/
def _arxiv_url_to_id (url : String) : Option String :=
  let s := url.data
  if starts_with arxiv_abs_head s then
    let rest := s.drop arxiv_abs_head.length
    if id_shape (rest.take 10) then some (String.mk (rest.take 10)) else none
  else none

/-- Fuel-indexed body of `replaceAll`; fuel bounds the number of characters
still to be scanned, so `fuel = s.length` always suffices. -/
def replaceAllAux : Nat → List Char → List Char → List Char → List Char
  | 0, _, _, s => s
  | _ + 1, _, _, [] => []
  | fuel + 1, pat, rep, c :: rest =>
    if pat ≠ [] ∧ starts_with pat (c :: rest) = true then
      rep ++ replaceAllAux fuel pat rep ((c :: rest).drop pat.length)
    else
      c :: replaceAllAux fuel pat rep rest

/-- Python's `str.replace(pat, rep)` for a nonempty `pat` (the program only
uses `"\n"` and `"  "`): replace non-overlapping occurrences left to right,
resuming the scan after each replacement. -/
def replaceAll (pat rep s : List Char) : List Char :=
  replaceAllAux s.length pat rep s

/-- One fetched arXiv result as `feed_to_post` and the cross-list filter read
it: `feed.arxiv_url`, `feed.title`, `feed.authors`, and the term
`feed.arxiv_primary_category["term"]`. -/
structure Feed where
  arxiv_url : String
  title : String
  authors : List String
  arxiv_primary_category : String
deriving DecidableEq

/-- Embedding of `feed_to_post` (src/main.py lines 146-164): the title goes through
`.replace("\n", "").replace("  ", " ")`, the authors through
`", ".join(_truncate_authors(feed.authors, 2))`, and the line is
an f-string concatenation.  `none` models the exception
propagating out of `_arxiv_url_to_id`. -/
def feed_to_post (feed : Feed) : Option String :=
  match _arxiv_url_to_id feed.arxiv_url with
  | none => none
  | some identifier =>
    let title := String.mk
      (replaceAll "  ".data " ".data (replaceAll "\n".data "".data feed.title.data))
    let authors := String.intercalate ", " (_truncate_authors feed.authors 2)
    some ("[<" ++ feed.arxiv_url ++ "|" ++ identifier ++ ">] " ++ title ++
          " (" ++ authors ++ ")")

/-- Truthiness of `re.match(category, term)` as used by the cross-list filter
(src/main.py line 141): the category string is interpreted as a regular
expression matched at the start of the term.  Category strings in this
program (e.g. `cs.LG`) use only literal characters and the metacharacter `.`
(any single character), which is the fragment modelled here. -/
def re_match : List Char → List Char → Bool
  | [], _ => true
  | _ :: _, [] => false
  | p :: ps, c :: cs => (p == '.' || p == c) && re_match ps cs

/-- The `# Remove cross-lists` filter of `fetch_paper_feeds`
(src/main.py lines 139-142): keep a feed exactly when
`re.match(category, feed.arxiv_primary_category["term"])` is truthy. -/
def remove_cross_lists (category : String) (feeds : List Feed) : List Feed :=
  feeds.filter (fun feed => re_match category.data feed.arxiv_primary_category.data)

/-- The concrete feed of the formatter round-trip example: URL
`http://arxiv.org/abs/2101.00001`, title `"Foo\n\nBar  Baz"`, authors
`["A", "B", "C"]`. -/
def example_feed : Feed :=
  { arxiv_url := "http://arxiv.org/abs/2101.00001"
    title := "Foo\n\nBar  Baz"
    authors := ["A", "B", "C"]
    arxiv_primary_category := "cs.LG" }

/-- A cross-listed feed: its primary category term differs from the
requested category in its first character already. -/
def cross_feed : Feed :=
  { arxiv_url := "http://arxiv.org/abs/2101.00002"
    title := "T"
    authors := ["A"]
    arxiv_primary_category := "math.CO" }

/-! ## Helper lemmas -/

theorem starts_with_iff (p s : List Char) :
    starts_with p s = true ↔ ∃ t, s = p ++ t := by
  induction p generalizing s with
  | nil => simp [starts_with]
  | cons c ps ih =>
    cases s with
    | nil => simp [starts_with]
    | cons d ds =>
      simp only [starts_with, Bool.and_eq_true, beq_iff_eq, ih,
        List.cons_append, List.cons.injEq]
      aesop

theorem id_shape_length (l : List Char) (h : id_shape l = true) :
    l.length = 10 := by
  simp only [id_shape, Bool.and_eq_true, beq_iff_eq] at h
  exact h.1.1.1

theorem isoweekday_bounds (o : Int) : 1 ≤ isoweekday o ∧ isoweekday o ≤ 7 := by
  simp only [isoweekday]
  omega

theorem skip_fri_sat_of_ne (o : Int) (h5 : isoweekday o ≠ 5)
    (h6 : isoweekday o ≠ 6) : skip_fri_sat o = o := by
  unfold skip_fri_sat
  simp [h5, h6]

theorem isoweekday_sub_one (o : Int) (k : Int) (h : isoweekday o = k)
    (hk : 2 ≤ k) : isoweekday (o - 1) = k - 1 := by
  simp only [isoweekday] at *
  omega

theorem skip_fri_sat_of_five (o : Int) (h : isoweekday o = 5) :
    skip_fri_sat o = o - 1 := by
  unfold skip_fri_sat
  rw [if_pos (Or.inl h)]
  have h4 : isoweekday (o - 1) = 4 := isoweekday_sub_one o 5 h (by norm_num)
  exact skip_fri_sat_of_ne (o - 1) (by omega) (by omega)

theorem skip_fri_sat_of_six (o : Int) (h : isoweekday o = 6) :
    skip_fri_sat o = o - 2 := by
  unfold skip_fri_sat
  rw [if_pos (Or.inr h)]
  have h5 : isoweekday (o - 1) = 5 := isoweekday_sub_one o 6 h (by norm_num)
  rw [skip_fri_sat_of_five (o - 1) h5]
  ring

theorem skip_fri_sat_avoids (o : Int) :
    isoweekday (skip_fri_sat o) ≠ 5 ∧ isoweekday (skip_fri_sat o) ≠ 6 := by
  by_cases h5 : isoweekday o = 5
  · rw [skip_fri_sat_of_five o h5]
    have := isoweekday_sub_one o 5 h5 (by norm_num)
    omega
  · by_cases h6 : isoweekday o = 6
    · rw [skip_fri_sat_of_six o h6]
      have h5' : isoweekday (o - 1) = 5 := isoweekday_sub_one o 6 h6 (by norm_num)
      have : isoweekday (o - 1 - 1) = 4 := isoweekday_sub_one (o - 1) 5 h5' (by norm_num)
      have heq : o - 2 = o - 1 - 1 := by ring
      rw [heq]
      omega
    · rw [skip_fri_sat_of_ne o h5 h6]
      exact ⟨h5, h6⟩

theorem get_range_none_of_fri_sat (o : Int)
    (h : isoweekday o = 5 ∨ isoweekday o = 6) :
    get_submitted_date_range o = none := by
  unfold get_submitted_date_range
  rw [if_pos h]

/-! ## Claims -/

/-- C1, counterexample: the claim says `get_submitted_date_range` rejects
every Saturday *and Sunday* date, but for the Sunday 2021-01-17
(ordinal 737807, isoweekday 7) the code returns a window — the one its own
doctest records — instead of raising. -/
theorem sunday_window_returned :
    isoweekday 737807 = 7 ∧
      get_submitted_date_range 737807 =
        some ({ ordinal := 737806, sod := 50400 },
              { ordinal := 737807, sod := 50399 }) := by
  constructor
  · decide
  · decide

/-- C1, amended: `get_submitted_date_range` raises exactly on Friday and
Saturday dates (isoweekday 5 or 6), not Saturday and Sunday; for every such
date it returns `none` (the `ValueError`) rather than clamping. -/
theorem rejects_friday_and_saturday (o : Int)
    (h : isoweekday o = 5 ∨ isoweekday o = 6) :
    get_submitted_date_range o = none :=
  get_range_none_of_fri_sat o h

theorem rejects_friday_and_saturday_witness :
    get_submitted_date_range 737805 = none :=
  rejects_friday_and_saturday 737805 (Or.inl (by decide))

/-- C4: for every Monday date (isoweekday 1) `get_submitted_date_range`
returns the window from three calendar days earlier — a Friday — at 14:00:00
EST to the Monday itself at 13:59:59 EST. -/
theorem monday_window_spans_from_friday (o : Int) (h : isoweekday o = 1) :
    get_submitted_date_range o =
        some ({ ordinal := o - 3, sod := 50400 },
              { ordinal := o, sod := 50399 }) ∧
      isoweekday (o - 3) = 5 := by
  constructor
  · unfold get_submitted_date_range
    rw [if_neg (by omega)]
    simp [h]
  · simp only [isoweekday] at *
    omega

theorem monday_window_spans_from_friday_witness :
    get_submitted_date_range 737808 =
        some ({ ordinal := 737805, sod := 50400 },
              { ordinal := 737808, sod := 50399 }) ∧
      isoweekday 737805 = 5 :=
  monday_window_spans_from_friday 737808 (by decide)

/-- C5: for every non-Monday weekday date accepted by
`get_submitted_date_range` (so isoweekday 2, 3 or 4: Friday is rejected),
the window runs from the previous calendar day at 14:00:00 EST to the date
itself at 13:59:59 EST, a span of exactly 86399 seconds — 24 hours less one
second. -/
theorem weekday_window_one_day (o : Int) (hmon : isoweekday o ≠ 1)
    (_hweek : isoweekday o ≤ 5)
    (hacc : get_submitted_date_range o ≠ none) :
    get_submitted_date_range o =
        some ({ ordinal := o - 1, sod := 50400 },
              { ordinal := o, sod := 50399 }) ∧
      est_seconds { ordinal := o, sod := 50399 } -
          est_seconds { ordinal := o - 1, sod := 50400 } = 86399 := by
  have h5 : isoweekday o ≠ 5 := by
    intro h
    exact hacc (get_range_none_of_fri_sat o (Or.inl h))
  have h6 : isoweekday o ≠ 6 := by
    intro h
    exact hacc (get_range_none_of_fri_sat o (Or.inr h))
  constructor
  · unfold get_submitted_date_range
    rw [if_neg (by tauto)]
    simp [hmon]
  · simp only [est_seconds]
    ring

theorem weekday_window_one_day_witness :
    get_submitted_date_range 737802 =
        some ({ ordinal := 737801, sod := 50400 },
              { ordinal := 737802, sod := 50399 }) ∧
      est_seconds { ordinal := 737802, sod := 50399 } -
          est_seconds { ordinal := 737801, sod := 50400 } = 86399 :=
  weekday_window_one_day 737802 (by decide) (by decide) (by decide)

/-- C10: `get_submitted_date_range` raises exactly for ISO weekday 5
(Friday) or 6 (Saturday) and returns a window for every other weekday; in
particular a Sunday date (isoweekday 7) is accepted, and its window runs
from the preceding Saturday at 14:00:00 EST to the Sunday at 13:59:59
EST. -/
theorem window_rejection_characterization (o : Int) :
    (get_submitted_date_range o = none ↔
        isoweekday o = 5 ∨ isoweekday o = 6) ∧
      (isoweekday o = 7 →
        get_submitted_date_range o =
            some ({ ordinal := o - 1, sod := 50400 },
                  { ordinal := o, sod := 50399 }) ∧
          isoweekday (o - 1) = 6) := by
  constructor
  · constructor
    · intro hnone
      by_contra h
      push_neg at h
      unfold get_submitted_date_range at hnone
      rw [if_neg (by tauto)] at hnone
      simp at hnone
    · exact get_range_none_of_fri_sat o
  · intro h7
    constructor
    · unfold get_submitted_date_range
      rw [if_neg (by omega)]
      simp [show isoweekday o ≠ 1 by omega]
    · simp only [isoweekday] at *
      omega

theorem window_rejection_characterization_witness :
    get_submitted_date_range 737807 =
        some ({ ordinal := 737806, sod := 50400 },
              { ordinal := 737807, sod := 50399 }) ∧
      isoweekday 737806 = 6 :=
  (window_rejection_characterization 737807).2 (by decide)

/-- C2, counterexample: the claim says the day returned by
`latest_announced_date` is never a Saturday or a Sunday, but for the instant
2021-01-17 21:00 EST (ordinal 737807, a Sunday, after the 20:00 cutoff) the
returned day is that same Sunday: the backward walk only skips Friday and
Saturday. -/
theorem announced_date_sunday_possible :
    (latest_announced_date { ordinal := 737807, sod := 75600 }).ordinal
        = 737807 ∧
      isoweekday 737807 = 7 := by
  constructor
  · show skip_fri_sat (if (75600 : Int) < 72000 then 737807 - 1 else 737807)
        = 737807
    rw [if_neg (by norm_num)]
    exact skip_fri_sat_of_ne 737807 (by decide) (by decide)
  · decide

/-- C2, amended: for every reference instant the day returned by
`latest_announced_date` is never a Friday or a Saturday (it can be a
Sunday). -/
theorem announced_date_never_fri_sat (now : ESTDateTime) :
    isoweekday (latest_announced_date now).ordinal ≠ 5 ∧
      isoweekday (latest_announced_date now).ordinal ≠ 6 := by
  show isoweekday (skip_fri_sat _) ≠ 5 ∧ isoweekday (skip_fri_sat _) ≠ 6
  exact skip_fri_sat_avoids _

/-- C6: for every reference instant whose EST-local time is at or after
20:00 on a Tuesday, `latest_announced_date` returns that same Tuesday
anchored at 20:00 EST; for an EST-local time before 20:00 on a Tuesday it
returns the previous calendar day (the Monday) at 20:00 EST. -/
theorem tuesday_cutoff (now : ESTDateTime)
    (h : isoweekday now.ordinal = 2) :
    (72000 ≤ now.sod →
        latest_announced_date now = { ordinal := now.ordinal, sod := 72000 }) ∧
      (now.sod < 72000 →
        latest_announced_date now =
          { ordinal := now.ordinal - 1, sod := 72000 }) := by
  constructor
  · intro hge
    show ({ ordinal := skip_fri_sat (if now.sod < 72000 then now.ordinal - 1
        else now.ordinal), sod := 72000 } : ESTDateTime) = _
    rw [if_neg (by omega), skip_fri_sat_of_ne now.ordinal (by omega) (by omega)]
  · intro hlt
    show ({ ordinal := skip_fri_sat (if now.sod < 72000 then now.ordinal - 1
        else now.ordinal), sod := 72000 } : ESTDateTime) = _
    have h1 : isoweekday (now.ordinal - 1) = 1 :=
      isoweekday_sub_one now.ordinal 2 h (by norm_num)
    rw [if_pos hlt, skip_fri_sat_of_ne (now.ordinal - 1) (by omega) (by omega)]

theorem tuesday_cutoff_witness :
    latest_announced_date { ordinal := 737802, sod := 75600 } =
      { ordinal := 737802, sod := 72000 } :=
  (tuesday_cutoff { ordinal := 737802, sod := 75600 } (by decide)).1 (by decide)

/-- C7: for every reference instant whose EST-local time is 08:00 on a
Friday, `latest_announced_date` returns the preceding day — which is a
Thursday — at 20:00 EST: 08:00 is before the cutoff, so the day steps back
to Thursday, and Thursday is not walked further. -/
theorem friday_morning_maps_to_thursday (now : ESTDateTime)
    (h : isoweekday now.ordinal = 5) (hsod : now.sod = 28800) :
    latest_announced_date now =
        { ordinal := now.ordinal - 1, sod := 72000 } ∧
      isoweekday (now.ordinal - 1) = 4 := by
  have h4 : isoweekday (now.ordinal - 1) = 4 :=
    isoweekday_sub_one now.ordinal 5 h (by norm_num)
  constructor
  · show ({ ordinal := skip_fri_sat (if now.sod < 72000 then now.ordinal - 1
        else now.ordinal), sod := 72000 } : ESTDateTime) = _
    rw [if_pos (by omega),
      skip_fri_sat_of_ne (now.ordinal - 1) (by omega) (by omega)]
  · exact h4

theorem friday_morning_maps_to_thursday_witness :
    latest_announced_date { ordinal := 737805, sod := 28800 } =
        { ordinal := 737804, sod := 72000 } ∧
      isoweekday 737804 = 4 :=
  friday_morning_maps_to_thursday { ordinal := 737805, sod := 28800 }
    (by decide) (by decide)

/-- C3, counterexample: the claim expects the title `"Foo\n\nBar  Baz"` to
come out as `Foo Bar Baz`, but `feed_to_post` runs the title through
`.replace("\n", "")`, which deletes line breaks instead of turning them into
spaces, so `Foo` and `Bar` are glued together. -/
theorem feed_to_post_example_mismatch :
    feed_to_post example_feed ≠
      some "[<http://arxiv.org/abs/2101.00001|2101.00001>] Foo Bar Baz (A, B, ...)" := by
  decide

/-- C3, amended: on the example feed (URL `http://arxiv.org/abs/2101.00001`,
title `"Foo\n\nBar  Baz"`, authors `["A", "B", "C"]`), `feed_to_post` returns
exactly `"[<http://arxiv.org/abs/2101.00001|2101.00001>] FooBar Baz (A, B, ...)"`:
line breaks in the title are deleted (not collapsed to spaces) and each
repeated double-space is then collapsed to a single space. -/
theorem feed_to_post_example_exact :
    feed_to_post example_feed =
      some "[<http://arxiv.org/abs/2101.00001|2101.00001>] FooBar Baz (A, B, ...)" := by
  decide

/-- C8: the post-fetch cross-list filter never lets through a feed whose
primary category term fails the category match, for every category string
and every list of fetched feeds. -/
theorem cross_lists_removed (category : String) (feeds : List Feed)
    (feed : Feed)
    (h : re_match category.data feed.arxiv_primary_category.data = false) :
    feed ∉ remove_cross_lists category feeds := by
  intro hmem
  simp only [remove_cross_lists, List.mem_filter] at hmem
  rw [hmem.2] at h
  exact Bool.noConfusion h

theorem cross_lists_removed_witness :
    cross_feed ∉ remove_cross_lists "cs.LG" [cross_feed] :=
  cross_lists_removed "cs.LG" [cross_feed] cross_feed (by decide)

/-- C9, counterexample: the claim says extraction raises for every URL that
is not `http://arxiv.org/abs/` plus a `dddd.ddddd` identifier plus at most a
version suffix, but `re.match` only anchors at the start of the URL, so the
trailing `_junk` — no version suffix — is ignored and the identifier is
returned instead of an exception. -/
theorem url_id_trailing_junk_accepted :
    _arxiv_url_to_id "http://arxiv.org/abs/1234.56789_junk" =
      some "1234.56789" := by
  decide

/-- C9, amended: `_arxiv_url_to_id` succeeds exactly on the URLs that *begin*
with `http://arxiv.org/abs/` followed by a `\d{4}\.\d{5}` identifier — it
then returns that identifier regardless of what follows (a version suffix or
anything else) — and raises (returns `none`) on every other URL. -/
theorem url_id_iff_head_shape (url : String) :
    (∀ id tl, url.data = arxiv_abs_head ++ id ++ tl → id_shape id = true →
        _arxiv_url_to_id url = some (String.mk id)) ∧
      ((∀ id tl, url.data = arxiv_abs_head ++ id ++ tl →
          id_shape id = false) →
        _arxiv_url_to_id url = none) := by
  constructor
  · intro id tl hurl hshape
    have hlen : id.length = 10 := id_shape_length id hshape
    have hpre : starts_with arxiv_abs_head url.data = true := by
      rw [starts_with_iff]
      exact ⟨id ++ tl, by rw [hurl, List.append_assoc]⟩
    simp only [_arxiv_url_to_id]
    rw [if_pos hpre, hurl, List.append_assoc, List.drop_left]
    have htake : (id ++ tl).take 10 = id := by
      rw [← hlen, List.take_left]
    rw [htake, if_pos hshape]
  · intro hall
    simp only [_arxiv_url_to_id]
    by_cases hpre : starts_with arxiv_abs_head url.data = true
    · obtain ⟨t, ht⟩ := (starts_with_iff _ _).mp hpre
      have hdecomp : url.data = arxiv_abs_head ++ t.take 10 ++ t.drop 10 := by
        rw [ht, List.append_assoc, List.take_append_drop]
      have hshape := hall (t.take 10) (t.drop 10) hdecomp
      rw [if_pos hpre, ht, List.drop_left, if_neg (by simp [hshape])]
    · rw [if_neg hpre]

theorem url_id_iff_head_shape_witness :
    _arxiv_url_to_id "http://arxiv.org/abs/2101.00001v1" =
      some (String.mk "2101.00001".data) :=
  (url_id_iff_head_shape "http://arxiv.org/abs/2101.00001v1").1
    "2101.00001".data "v1".data (by decide) (by decide)
